import Mathlib

/-!
# Verification of the better-ipc request/response core

Shallow embedding of the IPC protocol engine found in
`discord/ext/ipc/server.py`, `discord/ext/ipc/client.py` and
`discord/ext/ipc/objects.py`.  JSON values are modelled by an inductive
type; Python dictionaries become association lists that keep insertion
order (as Python dicts do); exceptions become `Except`/`Option` error
values; the `bot.dispatch("ipc_error", ...)` host notifications and the
handler invocations performed while processing one message are collected
into explicit lists.
-/

set_option maxHeartbeats 1000000

namespace BetterIpc

/-- JSON values as exchanged over the IPC websocket (`message.json()` /
`send_json` in aiohttp).  Objects are ordered association lists, matching
Python dict insertion order. -/
inductive Json where
  | null : Json
  | bool : Bool → Json
  | num  : Int → Json
  | str  : String → Json
  | arr  : List Json → Json
  | obj  : List (String × Json) → Json

/-- Python truthiness of a JSON value (`if not x` in the source):
`None`, `False`, `0`, `""`, `[]` and `{}` are falsy. -/
def truthy : Json → Bool
  | .null => false
  | .bool b => b
  | .num n => n != 0
  | .str s => s != ""
  | .arr xs => !xs.isEmpty
  | .obj fs => !fs.isEmpty

/-- First-binding lookup in an association list (Python `dict` access on
string keys). -/
def lookupStr {β : Type} : List (String × β) → String → Option β
  | [], _ => none
  | (k, v) :: rest, key => if k = key then some v else lookupStr rest key

/-- Python `x.get(k)` for `x` a decoded JSON value: returns `None`
(`Json.null`) for a missing key, and raises `AttributeError` (modelled
as `none`) when `x` is not a dict — exactly what happens at
`server.py:217` when the request carries no `headers` object. -/
def pyGet : Json → String → Option Json
  | .obj fs, k => some ((lookupStr fs k).getD .null)
  | _, _ => none

/-- The comparison `authorization != self.secret_key` at
`server.py:224/231`, negated.  `secret_key` is a `str` or `None`
(server constructor, `server.py:103`), so Python equality with the
decoded token reduces to these cases. -/
def authMatches : Json → Option String → Bool
  | .null, none => true
  | .str t, some s => t == s
  | _, _ => false

/-- A registered endpoint handler: invoked with the decoded request
(the payload object wraps it, `server.py:256-259`), it either returns a
JSON value or raises (`Except.error` carries `str(error)`). -/
abbrev Handler := Json → Except String Json

/-- Result of `Server.process_request` on one inbound message:
`sent` is the frame passed to `websocket.send_json` (`none` when the
processing task died with an uncaught exception and no reply was sent),
`events` the `bot.dispatch("ipc_error", ...)` messages emitted, and
`invoked` the names of the endpoint handlers that were invoked. -/
structure ProcResult where
  sent : Option Json
  events : List String
  invoked : List String

/-- The literal error reply dicts built in `process_request`
(`{"error": ..., "code": ...}`). -/
def errorFrame (e : String) (k : Int) : Json :=
  Json.obj [("error", Json.str e), ("code", Json.num k)]

/-- From `server.py:233-236`: the 403 reply of the second authorization check. -/
def unauthorizedFrame : Json :=
  errorFrame "Received unauthorized request (invalid or no token provided)." 403

/-- From `server.py:240-243`: the 404 reply for a missing endpoint name. -/
def noEndpointFrame : Json :=
  errorFrame "Received invalid request (no endpoint provided)" 404

/-- From `server.py:247-250`: the 404 reply for an unregistered endpoint. -/
def invalidEndpointFrame : Json :=
  errorFrame "Received invalid request (invalid endpoint provided)" 404

/-- From `server.py:272-275`: the 500 reply when a handler raised. -/
def handlerErrorFrame (msg : String) : Json := errorFrame msg 500

/-- Python `response["code"] = 200` (`server.py:281`): update the
binding in place if the key exists, else append it. -/
def setKeyCode : List (String × Json) → List (String × Json)
  | [] => [("code", Json.num 200)]
  | (k, v) :: rest =>
    if k = "code" then ("code", Json.num 200) :: rest else (k, v) :: setKeyCode rest

/-- From `server.py:277-283`: `response = response or {}`, then default the
`code` field to 200 when absent or falsy, then `send_json`.  A truthy
non-dict response makes `response.get("code")` raise `AttributeError`,
which falls through to `except Exception: raise IPCError(...)`
(`server.py:304-305`) and nothing is sent (`none`). -/
def wrapResponse (resp : Json) : Option Json :=
  match (if truthy resp then resp else Json.obj []) with
  | Json.obj fs =>
    if truthy ((lookupStr fs "code").getD Json.null) then some (Json.obj fs)
    else some (Json.obj (setKeyCode fs))
  | _ => none

/-- Package the pending reply through the final send step. -/
def finishSend (resp : Json) (evs inv : List String) : ProcResult :=
  ⟨wrapResponse resp, evs, inv⟩

/-- From `server.py:217-229`: the first (dead-store) authorization statement.
Its 403 response dicts are unconditionally overwritten by the second
check, but its `ipc_error` dispatches are observable. -/
def authEvents (auth : Json) (secret : Option String) : List String :=
  if !truthy auth then ["Received unauthorized request (no token provided))"]
  else if !authMatches auth secret then
    ["Received unauthorized request (invalid token provided)"]
  else []

/-- From `server.py:238-275`: endpoint resolution and handler invocation once
the authorization check has passed. -/
def dispatch (endpoints : List (String × Handler)) (request endpoint : Json)
    (ev1 : List String) : ProcResult :=
  if !truthy endpoint then
    finishSend noEndpointFrame
      (ev1 ++ ["Received invalid request (no endpoint provided)"]) []
  else
    match endpoint with
    | Json.str name =>
      match lookupStr endpoints name with
      | some h =>
        match h request with
        | Except.ok v => finishSend v ev1 [name]
        | Except.error msg => finishSend (handlerErrorFrame msg) (ev1 ++ [msg]) [name]
      | none =>
        finishSend invalidEndpointFrame
          (ev1 ++ ["Received invalid request (invalid endpoint provided)"]) []
    | _ =>
      finishSend invalidEndpointFrame
        (ev1 ++ ["Received invalid request (invalid endpoint provided)"]) []

/-- From `server.py:217-283` after the three `.get` extractions: the first
authorization statement (events only, dead stores), then
`if not headers or headers.get("Authorization") != self.secret_key`
(`server.py:231`), then endpoint dispatch. -/
def processAuthed (secret : Option String) (endpoints : List (String × Handler))
    (request endpoint headers auth : Json) : ProcResult :=
  if !truthy headers || !authMatches auth secret then
    finishSend unauthorizedFrame
      (authEvents auth secret ++
        ["Received unauthorized request (Invalid or no token provided)"]) []
  else
    dispatch endpoints request endpoint (authEvents auth secret)

/-- Embedding of `Server.process_request` (`server.py:198-305`): decode the message,
extract `endpoint` and `headers` (`server.py:214-215`), evaluate
`headers.get("Authorization")` (`server.py:217`, an `AttributeError`
crash when `headers` is not a dict), then authorize and dispatch. -/
def process_request (secret : Option String) (endpoints : List (String × Handler))
    (request : Json) : ProcResult :=
  match pyGet request "endpoint" with
  | none => ⟨none, [], []⟩
  | some endpoint =>
    match pyGet request "headers" with
    | none => ⟨none, [], []⟩
    | some headers =>
      match pyGet headers "Authorization" with
      | none => ⟨none, [], []⟩
      | some auth => processAuthed secret endpoints request endpoint headers auth

/-- Embedding of `Server.accept_request` (`server.py:168-184`): the read loop spawns
an independent `process_request` task per inbound message and never
breaks; it reads nothing from the connection's own headers
(`connHeaders`, where the spec places the `"ID"` identity), so every
message is processed identically and the loop survives handler
failures. -/
def accept_request (secret : Option String) (endpoints : List (String × Handler))
    (connHeaders : List (String × Json)) (messages : List Json) : List ProcResult :=
  messages.map (process_request secret endpoints)

/-- The `code` field of the frame a `ProcResult` sent, when any. -/
def sentCode (r : ProcResult) : Option Json :=
  match r.sent with
  | some (Json.obj fs) => lookupStr fs "code"
  | _ => none

/-- The client's configured secret as it appears in the JSON frame
(`"Authorization": self.secret_key`, `client.py:149`). -/
def secretJson : Option String → Json
  | none => Json.null
  | some s => Json.str s

/-- The request frame built by `Client.request` (`client.py:146-150`):
the caller's keyword arguments travel under the top-level key `"data"`. -/
def requestFrame (endpoint : String) (kwargs : List (String × Json))
    (secret : Option String) : Json :=
  Json.obj [("endpoint", Json.str endpoint), ("data", Json.obj kwargs),
            ("headers", Json.obj [("Authorization", secretJson secret)])]

/-- Embedding of `ClientPayload` (`objects.py:39-43`): stores the raw payload, its
length, `payload.get("endpoint")` and `payload.get("kwargs")`.
Construction fails (`len` raises) when the payload is not a dict. -/
structure ClientPayload where
  payload : Json
  length : Nat
  endpoint : Json
  data : Json

/-- Embedding of `ClientPayload.__init__` on a decoded frame. -/
def ClientPayload.ofJson : Json → Option ClientPayload
  | .obj fs => some
      { payload := .obj fs
        length := fs.length
        endpoint := (lookupStr fs "endpoint").getD .null
        data := (lookupStr fs "kwargs").getD .null }
  | _ => none

/-- Embedding of `ClientPayload.__getitem__` (`objects.py:45-46`): `self.data[k]`.
When `data` is `None` the subscript raises `TypeError`; when it is a
dict a missing key raises `KeyError`. -/
def ClientPayload.getItem (cp : ClientPayload) (k : String) : Except String Json :=
  match cp.data with
  | .obj fs =>
    match lookupStr fs k with
    | some v => .ok v
    | none => .error ("KeyError: " ++ k)
  | _ => .error "TypeError: object is not subscriptable"

/-- Embedding of `ServerResponse` (`objects.py:92-94`) applied to an already
json-decoded payload: `self.data["decoding"]` raises `KeyError` when the
frame has no `decoding` key. -/
structure ServerResponse where
  data : Json
  decoding : Json

/-- Embedding of `ServerResponse.__init__` after `json.loads`. -/
def ServerResponse.ofJson : Json → Except String ServerResponse
  | .obj fs =>
    match lookupStr fs "decoding" with
    | some d => .ok { data := .obj fs, decoding := d }
    | none => .error "KeyError: decoding"
  | _ => .error "TypeError: not a JSON object"

/-- The client engine's session flags (`client.py:43-44`). -/
structure ClientState where
  started : Bool
  closed : Bool

/-- Embedding of `Client.close` (`client.py:250-257`): releases the session and sets
`closed = True` (it does not reset `started`). -/
def Client.close (st : ClientState) : ClientState := { st with closed := true }

/-- The guard prefix of `Client.request` (`client.py:137-144`): the two
flag checks run before any network primitive.  The second component
lists the network operations performed; on the guarded error paths it
is empty. -/
def Client.request (st : ClientState) : Except String Unit × List String :=
  if !st.started then (.error "Session not started yet!", [])
  else if st.closed then (.error "Session closed!", [])
  else (.ok (), ["init_sock", "send_json", "receive"])

/-- Python dict assignment `d[k] = v`: overwrite in place, else append. -/
def setEntry {β : Type} : List (String × β) → String → β → List (String × β)
  | [], k, v => [(k, v)]
  | (k', v') :: rest, k, v =>
    if k' = k then (k, v) :: rest else (k', v') :: setEntry rest k v

/-- Embedding of `Server.route` (`server.py:144-166`): registers the handler under
`name or func.__name__` by plain dict assignment
(`Server.endpoints[...] = ...`, `server.py:164`); never raises. -/
def route (endpoints : List (String × Handler)) (name : Option String)
    (funcName : String) (h : Handler) : List (String × Handler) :=
  setEntry endpoints
    (match name with
     | some n => if n ≠ "" then n else funcName
     | none => funcName) h

/-- A well-behaved sample handler: returns `{"ok": true}`. -/
def pingHandler : Handler := fun _ => .ok (Json.obj [("ok", Json.bool true)])

/-- A sample handler that raises. -/
def boomHandler : Handler := fun _ => .error "boom"

/-- A sample handler whose result already carries a truthy `code`. -/
def codedHandler : Handler :=
  fun _ => .ok (Json.obj [("ok", Json.bool true), ("code", Json.num 200)])

/-- A well-formed request frame naming endpoint `"ping"` with the given
Authorization token. -/
def sampleRequest (token : Json) : Json :=
  Json.obj [("endpoint", Json.str "ping"), ("data", Json.obj []),
            ("headers", Json.obj [("Authorization", token)])]

/-- The liveness probe frame of the wire protocol (spec §6). -/
def connectionProbe : Json := Json.obj [("connection_test", Json.bool true)]

/-- A concrete valid request naming the `"boom"` endpoint with token `"s"`. -/
def boomRequest : Json :=
  Json.obj [("endpoint", Json.str "boom"),
            ("headers", Json.obj [("Authorization", Json.str "s")])]

/-! ## Helper lemmas -/

theorem lookup_setKeyCode (fs : List (String × Json)) :
    lookupStr (setKeyCode fs) "code" = some (Json.num 200) := by
  induction fs with
  | nil => rfl
  | cons p rest ih =>
    obtain ⟨k, v⟩ := p
    by_cases hk : k = "code" <;> simp [setKeyCode, lookupStr, hk, ih]

theorem setKeyCode_of_none :
    ∀ {fs : List (String × Json)}, lookupStr fs "code" = none →
      setKeyCode fs = fs ++ [("code", Json.num 200)] := by
  intro fs
  induction fs with
  | nil => intro _; rfl
  | cons p rest ih =>
    obtain ⟨k, v⟩ := p
    intro h
    by_cases hk : k = "code"
    · simp [lookupStr, hk] at h
    · simp only [lookupStr, hk, if_false, if_neg hk] at h
      simp [setKeyCode, hk, ih h]

theorem truthy_obj_cons (p : String × Json) (rest : List (String × Json)) :
    truthy (Json.obj (p :: rest)) = true := by
  simp [truthy]

theorem wrapResponse_obj_none {m : List (String × Json)}
    (hc : lookupStr m "code" = none) :
    wrapResponse (Json.obj m) = some (Json.obj (m ++ [("code", Json.num 200)])) := by
  cases m with
  | nil => rfl
  | cons p rest =>
    simp [wrapResponse, truthy_obj_cons, hc, setKeyCode_of_none hc,
      show truthy Json.null = false from rfl]

theorem wrapResponse_obj_some {m : List (String × Json)} {c : Json}
    (hc : lookupStr m "code" = some c) (htc : truthy c = true) :
    wrapResponse (Json.obj m) = some (Json.obj m) := by
  cases m with
  | nil => simp [lookupStr] at hc
  | cons p rest =>
    simp [wrapResponse, truthy_obj_cons, hc, htc]

theorem authMatches_some_false {a : Json} {s : String} (h : a ≠ Json.str s) :
    authMatches a (some s) = false := by
  cases a with
  | str t =>
    have hts : t ≠ s := fun he => h (by rw [he])
    simp [authMatches, hts]
  | null => rfl
  | bool b => rfl
  | num n => rfl
  | arr xs => rfl
  | obj fs => rfl

theorem lookup_setEntry {β : Type} (l : List (String × β)) (k : String) (v : β) :
    lookupStr (setEntry l k v) k = some v := by
  induction l with
  | nil => simp [setEntry, lookupStr]
  | cons p rest ih =>
    obtain ⟨k', v'⟩ := p
    by_cases hk : k' = k <;> simp [setEntry, lookupStr, hk, ih]

theorem truthy_str_ne {n : String} (hn : n ≠ "") : truthy (Json.str n) = true := by
  simp only [truthy, ne_eq, bne_iff_ne]
  exact hn

/-- Reduction of `process_request` on a fully well-formed, authorized
request that reaches a registered handler. -/
theorem process_request_dispatch (secret : Option String)
    (endpoints : List (String × Handler)) (request headers auth : Json)
    (n : String) (h : Handler)
    (hep : pyGet request "endpoint" = some (Json.str n))
    (hh : pyGet request "headers" = some headers)
    (ha : pyGet headers "Authorization" = some auth)
    (hth : truthy headers = true)
    (hm : authMatches auth secret = true)
    (hn : n ≠ "")
    (hl : lookupStr endpoints n = some h) :
    process_request secret endpoints request =
      (match h request with
       | Except.ok v => finishSend v (authEvents auth secret) [n]
       | Except.error msg =>
           finishSend (handlerErrorFrame msg) (authEvents auth secret ++ [msg]) [n]) := by
  simp [process_request, hep, hh, ha, processAuthed, hth, hm, dispatch,
    truthy_str_ne hn, hl]

/-! ## C1 -/

/-- C1: on a server configured with a secret key, a request whose
Authorization token is missing (null) or differs from the secret is
answered with the 403 unauthorized frame, no handler is invoked, and an
`ipc_error` notification is dispatched to the bot. -/
theorem c1_unauthorized (s : String) (endpoints : List (String × Handler))
    (request endpoint headers auth : Json)
    (hep : pyGet request "endpoint" = some endpoint)
    (hh : pyGet request "headers" = some headers)
    (ha : pyGet headers "Authorization" = some auth)
    (hneq : auth ≠ Json.str s) :
    (process_request (some s) endpoints request).sent = some unauthorizedFrame ∧
    (process_request (some s) endpoints request).invoked = [] ∧
    "Received unauthorized request (Invalid or no token provided)" ∈
      (process_request (some s) endpoints request).events := by
  have hm : authMatches auth (some s) = false := authMatches_some_false hneq
  have hpr : process_request (some s) endpoints request =
      finishSend unauthorizedFrame
        (authEvents auth (some s) ++
          ["Received unauthorized request (Invalid or no token provided)"]) [] := by
    simp [process_request, hep, hh, ha, processAuthed, hm]
  rw [hpr]
  refine ⟨rfl, rfl, ?_⟩
  simp [finishSend]

theorem c1_witness :
    (process_request (some "secret") [("ping", pingHandler)]
        (sampleRequest (Json.str "wrong"))).sent = some unauthorizedFrame ∧
    (process_request (some "secret") [("ping", pingHandler)]
        (sampleRequest (Json.str "wrong"))).invoked = [] ∧
    "Received unauthorized request (Invalid or no token provided)" ∈
      (process_request (some "secret") [("ping", pingHandler)]
        (sampleRequest (Json.str "wrong"))).events :=
  c1_unauthorized "secret" [("ping", pingHandler)] (sampleRequest (Json.str "wrong"))
    (Json.str "ping") (Json.obj [("Authorization", Json.str "wrong")])
    (Json.str "wrong") rfl rfl rfl
    (fun hx => absurd (Json.str.inj hx) (by decide))

/-! ## C2 -/

/-- C2 counterexample: on a server constructed with no secret key, a
request that carries a (non-null) auth token and names a registered
endpoint is rejected with the 403 frame and no handler runs — the
authorization check is not disabled for it, contradicting the claimed
code-200 response. -/
theorem c2_counterexample :
    (process_request none [("ping", pingHandler)]
        (sampleRequest (Json.str "x"))).sent = some unauthorizedFrame ∧
    (process_request none [("ping", pingHandler)]
        (sampleRequest (Json.str "x"))).invoked = [] := ⟨rfl, rfl⟩

/-- C2 (amended): with no secret configured, only a request whose
Authorization token is null (as the client sends when it also has no
secret) inside a nonempty headers object is dispatched normally — a
registered endpoint then yields a code-200 response, though a spurious
no-token `ipc_error` event is still emitted. -/
theorem c2_no_secret (endpoints : List (String × Handler))
    (request headers : Json) (n : String) (h : Handler)
    (m : List (String × Json))
    (hep : pyGet request "endpoint" = some (Json.str n))
    (hh : pyGet request "headers" = some headers)
    (ha : pyGet headers "Authorization" = some Json.null)
    (hth : truthy headers = true)
    (hn : n ≠ "")
    (hl : lookupStr endpoints n = some h)
    (hr : h request = Except.ok (Json.obj m))
    (hc : lookupStr m "code" = none) :
    (process_request none endpoints request).sent =
      some (Json.obj (m ++ [("code", Json.num 200)])) ∧
    (process_request none endpoints request).invoked = [n] ∧
    (process_request none endpoints request).events =
      ["Received unauthorized request (no token provided))"] := by
  have hd := process_request_dispatch none endpoints request headers Json.null n h
    hep hh ha hth rfl hn hl
  rw [hr] at hd
  refine ⟨?_, ?_, ?_⟩ <;> rw [hd]
  · show wrapResponse (Json.obj m) = _
    exact wrapResponse_obj_none hc
  · rfl
  · rfl

theorem c2_witness :
    (process_request none [("ping", pingHandler)] (sampleRequest Json.null)).sent =
      some (Json.obj [("ok", Json.bool true), ("code", Json.num 200)]) ∧
    (process_request none [("ping", pingHandler)] (sampleRequest Json.null)).invoked =
      ["ping"] ∧
    (process_request none [("ping", pingHandler)] (sampleRequest Json.null)).events =
      ["Received unauthorized request (no token provided))"] :=
  c2_no_secret [("ping", pingHandler)] (sampleRequest Json.null)
    (Json.obj [("Authorization", Json.null)]) "ping" pingHandler
    [("ok", Json.bool true)] rfl rfl rfl rfl (by decide) rfl rfl rfl

/-! ## C3 -/

/-- C3: on a dispatched message whose handler returns a mapping without
a `code` field (or returns `None`), the reply frame sent back carries
`code = 200`. -/
theorem c3_default_code (secret : Option String)
    (endpoints : List (String × Handler)) (request headers auth r : Json)
    (n : String) (h : Handler)
    (hep : pyGet request "endpoint" = some (Json.str n))
    (hh : pyGet request "headers" = some headers)
    (ha : pyGet headers "Authorization" = some auth)
    (hth : truthy headers = true)
    (hm : authMatches auth secret = true)
    (hn : n ≠ "")
    (hl : lookupStr endpoints n = some h)
    (hr : h request = Except.ok r)
    (hshape : r = Json.null ∨ ∃ m, r = Json.obj m)
    (hc : ∀ m, r = Json.obj m → lookupStr m "code" = none) :
    ∃ fs, (process_request secret endpoints request).sent = some (Json.obj fs) ∧
      lookupStr fs "code" = some (Json.num 200) := by
  have hd := process_request_dispatch secret endpoints request headers auth n h
    hep hh ha hth hm hn hl
  rw [hr] at hd
  rcases hshape with hnull | ⟨m, hobj⟩
  · subst hnull
    refine ⟨[("code", Json.num 200)], ?_, rfl⟩
    rw [hd]
    rfl
  · subst hobj
    refine ⟨m ++ [("code", Json.num 200)], ?_, ?_⟩
    · rw [hd]
      show wrapResponse (Json.obj m) = _
      exact wrapResponse_obj_none (hc m rfl)
    · rw [← setKeyCode_of_none (hc m rfl)]
      exact lookup_setKeyCode m

theorem c3_witness :
    ∃ fs, (process_request (some "k") [("ping", pingHandler)]
        (sampleRequest (Json.str "k"))).sent = some (Json.obj fs) ∧
      lookupStr fs "code" = some (Json.num 200) :=
  c3_default_code (some "k") [("ping", pingHandler)] (sampleRequest (Json.str "k"))
    (Json.obj [("Authorization", Json.str "k")]) (Json.str "k")
    (Json.obj [("ok", Json.bool true)]) "ping" pingHandler
    rfl rfl rfl rfl rfl (by decide) rfl rfl
    (Or.inr ⟨[("ok", Json.bool true)], rfl⟩)
    (fun m hm => by injection hm with h2; rw [← h2]; rfl)

/-! ## C4 -/

/-- C4: when a registered handler raises, `process_request` catches the
failure, sends the 500 frame carrying the stringified error, dispatches
an `ipc_error` event, invokes the handler exactly once, and the read
loop processes a subsequent message on the same connection
independently (the connection stays open). -/
theorem c4_handler_failure (secret : Option String)
    (endpoints : List (String × Handler)) (connHeaders : List (String × Json))
    (request m2 headers auth : Json) (n msg : String) (h : Handler)
    (hep : pyGet request "endpoint" = some (Json.str n))
    (hh : pyGet request "headers" = some headers)
    (ha : pyGet headers "Authorization" = some auth)
    (hth : truthy headers = true)
    (hm : authMatches auth secret = true)
    (hn : n ≠ "")
    (hl : lookupStr endpoints n = some h)
    (hr : h request = Except.error msg) :
    accept_request secret endpoints connHeaders [request, m2] =
      [process_request secret endpoints request,
       process_request secret endpoints m2] ∧
    (process_request secret endpoints request).sent = some (handlerErrorFrame msg) ∧
    msg ∈ (process_request secret endpoints request).events ∧
    (process_request secret endpoints request).invoked = [n] := by
  have hd := process_request_dispatch secret endpoints request headers auth n h
    hep hh ha hth hm hn hl
  rw [hr] at hd
  refine ⟨rfl, ?_, ?_, ?_⟩ <;> rw [hd]
  · show wrapResponse (handlerErrorFrame msg) = some (handlerErrorFrame msg)
    exact wrapResponse_obj_some (c := Json.num 500) rfl rfl
  · simp [finishSend]
  · rfl

theorem c4_witness :
    accept_request (some "s") [("boom", boomHandler)] []
        [boomRequest, sampleRequest Json.null] =
      [process_request (some "s") [("boom", boomHandler)] boomRequest,
       process_request (some "s") [("boom", boomHandler)] (sampleRequest Json.null)] ∧
    (process_request (some "s") [("boom", boomHandler)] boomRequest).sent =
      some (handlerErrorFrame "boom") ∧
    "boom" ∈ (process_request (some "s") [("boom", boomHandler)] boomRequest).events ∧
    (process_request (some "s") [("boom", boomHandler)] boomRequest).invoked =
      ["boom"] :=
  c4_handler_failure (some "s") [("boom", boomHandler)] [] boomRequest
    (sampleRequest Json.null) (Json.obj [("Authorization", Json.str "s")])
    (Json.str "s") "boom" "boom" boomHandler
    rfl rfl rfl rfl rfl (by decide) rfl rfl

/-! ## C5 -/

/-- C5: `Client.request` puts the keyword arguments under the key
`"data"` while `ClientPayload` reads `"kwargs"`, so the payload built
from any client frame has `data = None` and every item access on it
raises instead of returning the sent argument. -/
theorem c5_payload_mismatch (endpoint : String) (kwargs : List (String × Json))
    (secret : Option String) (k : String) :
    (ClientPayload.ofJson (requestFrame endpoint kwargs secret)).map
        ClientPayload.data = some Json.null ∧
    (ClientPayload.ofJson (requestFrame endpoint kwargs secret)).map
        (fun cp => cp.getItem k) =
      some (Except.error "TypeError: object is not subscriptable") := ⟨rfl, rfl⟩

/-! ## C6 -/

theorem errorFrame_ne422_aux (e : String) (k : Int) (hk : k ≠ 422) :
    ∀ m c, errorFrame e k = Json.obj m → lookupStr m "code" = some c →
      truthy c = true → c ≠ Json.num 422 := by
  intro m c hm hc _
  have hm' : m = [("error", Json.str e), ("code", Json.num k)] := by
    simpa [errorFrame] using hm.symm
  subst hm'
  rw [show lookupStr [("error", Json.str e), ("code", Json.num k)] "code" =
    some (Json.num k) from rfl] at hc
  injection hc with hck
  subst hck
  intro hcon
  exact hk (by injection hcon)

theorem sentCode_finishSend_ne422 (resp : Json) (evs inv : List String)
    (hresp : ∀ m c, resp = Json.obj m → lookupStr m "code" = some c →
      truthy c = true → c ≠ Json.num 422) :
    sentCode (finishSend resp evs inv) ≠ some (Json.num 422) := by
  by_cases ht : truthy resp = true
  · cases resp with
    | obj fs =>
      cases hc : lookupStr fs "code" with
      | none =>
        simp [sentCode, finishSend, wrapResponse, ht, hc, lookup_setKeyCode,
          show truthy Json.null = false from rfl]
      | some c =>
        by_cases htc : truthy c = true
        · have hne := hresp fs c rfl hc htc
          simp [sentCode, finishSend, wrapResponse, ht, hc, htc, hne]
        · have htc' : truthy c = false := by
            cases hcc : truthy c
            · rfl
            · exact absurd hcc htc
          simp [sentCode, finishSend, wrapResponse, ht, hc, htc', lookup_setKeyCode]
    | null => simp [truthy] at ht
    | bool b => simp [sentCode, finishSend, wrapResponse, ht]
    | num k => simp [sentCode, finishSend, wrapResponse, ht]
    | str s => simp [sentCode, finishSend, wrapResponse, ht]
    | arr xs => simp [sentCode, finishSend, wrapResponse, ht]
  · have ht' : truthy resp = false := by
      cases hcc : truthy resp
      · rfl
      · exact absurd hcc ht
    simp [sentCode, finishSend, wrapResponse, ht', lookup_setKeyCode, lookupStr,
      show truthy Json.null = false from rfl]

theorem dispatch_ne422 (endpoints : List (String × Handler))
    (request endpoint : Json) (ev1 : List String)
    (hh : ∀ n h, lookupStr endpoints n = some h →
      ∀ x m, h x = Except.ok (Json.obj m) →
        lookupStr m "code" ≠ some (Json.num 422)) :
    sentCode (dispatch endpoints request endpoint ev1) ≠ some (Json.num 422) := by
  unfold dispatch
  split
  · exact sentCode_finishSend_ne422 _ _ _ (errorFrame_ne422_aux _ 404 (by decide))
  split
  case _ name hlk =>
    split
    case _ h heq =>
      split
      case _ v hv =>
        refine sentCode_finishSend_ne422 _ _ _ ?_
        intro m c hm hc htc hcon
        subst hcon
        subst hm
        exact hh name h heq request m hv hc
      case _ msg hmsg =>
        exact sentCode_finishSend_ne422 _ _ _ (errorFrame_ne422_aux _ 500 (by decide))
    case _ heq =>
      exact sentCode_finishSend_ne422 _ _ _ (errorFrame_ne422_aux _ 404 (by decide))
  case _ hne =>
    exact sentCode_finishSend_ne422 _ _ _ (errorFrame_ne422_aux _ 404 (by decide))

theorem process_request_ne422 (secret : Option String)
    (endpoints : List (String × Handler)) (request : Json)
    (hh : ∀ n h, lookupStr endpoints n = some h →
      ∀ x m, h x = Except.ok (Json.obj m) →
        lookupStr m "code" ≠ some (Json.num 422)) :
    sentCode (process_request secret endpoints request) ≠ some (Json.num 422) := by
  unfold process_request
  split
  · simp [sentCode]
  split
  · simp [sentCode]
  split
  · simp [sentCode]
  unfold processAuthed
  split
  · exact sentCode_finishSend_ne422 _ _ _ (errorFrame_ne422_aux _ 403 (by decide))
  · exact dispatch_ne422 _ _ _ _ hh

/-- C6 counterexample: with identity `"A"`'s connection already served
(its authenticated message was dispatched with code 200, which per the
claim would make `"A"` hold the reservation), an identical message from
identity `"B"` on its own connection is also dispatched normally with
code 200 and its handler invoked — not rejected with a 422 frame naming
`"A"`.  The dispatcher has no reservation at all. -/
theorem c6_counterexample :
    accept_request (some "secret") [("ping", pingHandler)]
        [("ID", Json.str "A")] [sampleRequest (Json.str "secret")] =
      [⟨some (Json.obj [("ok", Json.bool true), ("code", Json.num 200)]),
        [], ["ping"]⟩] ∧
    accept_request (some "secret") [("ping", pingHandler)]
        [("ID", Json.str "B")] [sampleRequest (Json.str "secret")] =
      [⟨some (Json.obj [("ok", Json.bool true), ("code", Json.num 200)]),
        [], ["ping"]⟩] := ⟨rfl, rfl⟩

/-- C6 (amended): the server maintains no reservation state and never
reads the connection's identity: the results of a read loop are
identical for any connection headers (any `"ID"`), and no processed
message is ever answered with a 422 frame (provided, as in the sources,
no handler itself returns a mapping whose `code` is 422). -/
theorem c6_no_reservation (secret : Option String)
    (endpoints : List (String × Handler))
    (hdrsA hdrsB : List (String × Json)) (msgs : List Json)
    (hh : ∀ n h, lookupStr endpoints n = some h →
      ∀ x m, h x = Except.ok (Json.obj m) →
        lookupStr m "code" ≠ some (Json.num 422)) :
    accept_request secret endpoints hdrsA msgs =
      accept_request secret endpoints hdrsB msgs ∧
    ∀ r ∈ accept_request secret endpoints hdrsA msgs,
      sentCode r ≠ some (Json.num 422) := by
  refine ⟨rfl, ?_⟩
  intro r hr
  rw [accept_request] at hr
  obtain ⟨msg, _, hmsg⟩ := List.mem_map.mp hr
  rw [← hmsg]
  exact process_request_ne422 secret endpoints msg hh

theorem c6_witness :
    accept_request (some "secret") [("ping", pingHandler)]
        [("ID", Json.str "A")] [sampleRequest (Json.str "secret")] =
      accept_request (some "secret") [("ping", pingHandler)]
        [("ID", Json.str "B")] [sampleRequest (Json.str "secret")] ∧
    sentCode (process_request (some "secret") [("ping", pingHandler)]
        (sampleRequest (Json.str "secret"))) ≠ some (Json.num 422) := by
  have h := c6_no_reservation (some "secret") [("ping", pingHandler)]
    [("ID", Json.str "A")] [("ID", Json.str "B")]
    [sampleRequest (Json.str "secret")]
    (by
      intro n h hl x m hr
      simp only [lookupStr] at hl
      split at hl
      · injection hl with hl2
        subst hl2
        simp only [pingHandler] at hr
        injection hr with hr2
        injection hr2 with hr3
        rw [← hr3]
        rw [show lookupStr [("ok", Json.bool true)] "code" = none from rfl]
        simp
      · cases hl)
  exact ⟨h.1, h.2 _ (by simp [accept_request])⟩

/-! ## C7 -/

/-- C7 counterexample: a liveness probe `{"connection_test": true}` is
not answered with `{"code": 200}` — it carries no headers object, so
`headers.get("Authorization")` raises and the processing task dies with
no reply, no event and no handler invocation. -/
theorem c7_counterexample :
    process_request (some "secret") [("ping", pingHandler)] connectionProbe =
      ⟨none, [], []⟩ ∧
    (process_request (some "secret") [("ping", pingHandler)]
        connectionProbe).sent ≠ some (Json.obj [("code", Json.num 200)]) := by
  refine ⟨rfl, ?_⟩
  rw [show process_request (some "secret") [("ping", pingHandler)] connectionProbe =
    (⟨none, [], []⟩ : ProcResult) from rfl]
  simp

/-- C7 (amended): the dispatcher has no liveness-probe special case at
all: for every secret configuration and endpoint registry, processing
`{"connection_test": true}` crashes on the missing headers object and
sends nothing, emits nothing and invokes nothing. -/
theorem c7_no_probe (secret : Option String)
    (endpoints : List (String × Handler)) :
    process_request secret endpoints connectionProbe = ⟨none, [], []⟩ := rfl

/-! ## C8 -/

/-- C8 counterexample: the frame actually sent for a handler returning
the mapping `{"ok": true}` is `{"ok": true, "code": 200}`, and feeding
that frame to the client-side `ServerResponse` parser raises `KeyError`
(it demands a `"decoding"` key the server never emits) instead of
returning the mapping. -/
theorem c8_counterexample :
    (process_request (some "secret") [("ping", pingHandler)]
        (sampleRequest (Json.str "secret"))).sent =
      some (Json.obj [("ok", Json.bool true), ("code", Json.num 200)]) ∧
    ServerResponse.ofJson
        (Json.obj [("ok", Json.bool true), ("code", Json.num 200)]) =
      Except.error "KeyError: decoding" := ⟨rfl, rfl⟩

/-- C8 (amended): a handler mapping that already carries a truthy
`code` passes through the send step unchanged, so the JSON decode of
the response frame (`recv.json()`, which `Client.request` actually
uses) yields the very same mapping; the `ServerResponse` parser,
however, fails on every such server frame for lack of a `"decoding"`
key. -/
theorem c8_roundtrip (secret : Option String)
    (endpoints : List (String × Handler)) (request headers auth c : Json)
    (n : String) (h : Handler) (m : List (String × Json))
    (hep : pyGet request "endpoint" = some (Json.str n))
    (hh : pyGet request "headers" = some headers)
    (ha : pyGet headers "Authorization" = some auth)
    (hth : truthy headers = true)
    (hm : authMatches auth secret = true)
    (hn : n ≠ "")
    (hl : lookupStr endpoints n = some h)
    (hr : h request = Except.ok (Json.obj m))
    (hc : lookupStr m "code" = some c)
    (htc : truthy c = true)
    (hd : lookupStr m "decoding" = none) :
    (process_request secret endpoints request).sent = some (Json.obj m) ∧
    ServerResponse.ofJson (Json.obj m) = Except.error "KeyError: decoding" := by
  have hdd := process_request_dispatch secret endpoints request headers auth n h
    hep hh ha hth hm hn hl
  rw [hr] at hdd
  constructor
  · rw [hdd]
    show wrapResponse (Json.obj m) = some (Json.obj m)
    exact wrapResponse_obj_some hc htc
  · simp [ServerResponse.ofJson, hd]

theorem c8_witness :
    (process_request (some "s") [("ping", codedHandler)]
        (sampleRequest (Json.str "s"))).sent =
      some (Json.obj [("ok", Json.bool true), ("code", Json.num 200)]) ∧
    ServerResponse.ofJson
        (Json.obj [("ok", Json.bool true), ("code", Json.num 200)]) =
      Except.error "KeyError: decoding" :=
  c8_roundtrip (some "s") [("ping", codedHandler)] (sampleRequest (Json.str "s"))
    (Json.obj [("Authorization", Json.str "s")]) (Json.str "s") (Json.num 200)
    "ping" codedHandler [("ok", Json.bool true), ("code", Json.num 200)]
    rfl rfl rfl rfl rfl (by decide) rfl rfl rfl rfl rfl

/-! ## C9 -/

/-- C9: after `Client.close` on a started client, `Client.request`
fails immediately with the session-closed error and performs no network
operation. -/
theorem c9_session_closed (st : ClientState) (hstart : st.started = true) :
    Client.request (Client.close st) = (Except.error "Session closed!", []) := by
  simp [Client.request, Client.close, hstart]

theorem c9_witness :
    Client.request (Client.close ⟨true, false⟩) =
      (Except.error "Session closed!", []) :=
  c9_session_closed ⟨true, false⟩ rfl

/-! ## C10 -/

/-- C10: registering a handler under an already-registered name through
`Server.route` silently replaces the prior entry: the registry then
maps the name to the new handler, and registration itself is a total
operation that cannot fail. -/
theorem c10_route_overwrite (endpoints : List (String × Handler))
    (n fn1 fn2 : String) (h1 h2 : Handler) (hn : n ≠ "") :
    lookupStr (route (route endpoints (some n) fn1 h1) (some n) fn2 h2) n =
      some h2 := by
  simp only [route, ne_eq, hn, not_false_eq_true, if_true]
  exact lookup_setEntry _ n h2

theorem c10_witness :
    lookupStr (route (route [] (some "ping") "f" pingHandler)
        (some "ping") "g" boomHandler) "ping" = some boomHandler :=
  c10_route_overwrite [] "ping" "f" "g" pingHandler boomHandler (by decide)

end BetterIpc
